import Mathlib

/-!
Shallow embedding of the pctopus document question-answering pipeline.

External collaborators (Python codecs, PyPDF2, python-docx, the OpenAI
chat-completion endpoint, the on-disk file system) are modelled as an
explicit environment; the repository's own control flow (extension
dispatch, encoding fallback, error wrapping, UI validation) is embedded
faithfully from the source.
-/

/-- Bytes of a file, as stored on disk. -/
abbrev Bytes := List Nat

/-- A Python `UnicodeDecodeError`: the codec that failed and the
formatted message `str(e)` would produce. -/
structure UnicodeDecodeError where
  encoding : String
  message : String
deriving DecidableEq, Repr

/-- The Python exceptions the pipeline raises, each carrying the string
its `str(e)` renders to. -/
inductive PyError where
  | fileNotFoundError (message : String)
  | valueError (message : String)
  | unicodeDecodeError (err : UnicodeDecodeError)
  | importError (message : String)
  | exception (message : String)
deriving DecidableEq, Repr

/-- Python `str(e)` on an exception value. -/
def PyError.str : PyError → String
  | .fileNotFoundError m => m
  | .valueError m => m
  | .unicodeDecodeError e => e.message
  | .importError m => m
  | .exception m => m

/-- Environment of external capabilities: the codec table used by
`open(..., encoding=...)` plus `.read()`, and the optional third-party
parsers `PyPDF2` (per-page text) and `python-docx` (per-paragraph text). -/
structure Env where
  decode : String → Bytes → Except UnicodeDecodeError String
  pyPDF2Available : Bool
  pdfPages : Bytes → List String
  pythonDocxAvailable : Bool
  docxParagraphs : Bytes → List String

/-- The file system visible to `os.path.exists` and `open`: an
association of paths to byte contents. -/
structure FileSystem where
  files : List (String × Bytes)

/-- Split a character list on the path separator. -/
def splitOnSlash : List Char → List (List Char)
  | [] => [[]]
  | c :: rest =>
    let r := splitOnSlash rest
    if c = '/' then [] :: r
    else
      match r with
      | [] => [[c]]
      | h :: t => (c :: h) :: t

/-- Final path component, as `pathlib.Path(p).name`. -/
def pathName (file_path : String) : String :=
  String.mk (((splitOnSlash file_path.data).filter (fun c => c ≠ [])).getLastD [])

/-- Index of the last occurrence of a dot, as `name.rfind(".")`
(`none` standing for Python's `-1`). -/
def lastDotIdx (cs : List Char) : Option Nat :=
  ((List.range cs.length).filter (fun i => cs.getD i ' ' = '.')).getLast?

/-- `pathlib.Path(p).suffix`: from the last dot of the final component,
empty when that dot is leading or trailing or absent. -/
def pathSuffix (file_path : String) : String :=
  let name := pathName file_path
  match lastDotIdx name.data with
  | none => ""
  | some i =>
    if 0 < i ∧ i < name.data.length - 1 then String.mk (name.data.drop i) else ""

/-- Python `str.lower` restricted to the ASCII extensions in play. -/
def strToLower (s : String) : String := String.mk (s.data.map Char.toLower)

/-- The ordered fallback list of `read_txt_file`. -/
def fallbackEncodings : List String := ["latin-1", "ascii", "utf-16"]

/-- The `for encoding in [...]` loop of `read_txt_file`: try each
fallback in order, early return on the first success, `continue` on a
`UnicodeDecodeError`. -/
def tryFallbackEncodings (env : Env) (content : Bytes) : List String → Option String
  | [] => none
  | enc :: rest =>
    match env.decode enc content with
    | .ok text => some text
    | .error _ => tryFallbackEncodings env content rest

/-- `read_txt_file`: decode as UTF-8; on `UnicodeDecodeError` walk the
fallback list; if every fallback also fails, the bare `raise` re-raises
the exception being handled by the enclosing `except` block, which is
the original UTF-8 failure. -/
def read_txt_file (env : Env) (content : Bytes) : Except PyError String :=
  match env.decode "utf-8" content with
  | .ok text => .ok text
  | .error e =>
    match tryFallbackEncodings env content fallbackEncodings with
    | some text => .ok text
    | none => .error (.unicodeDecodeError e)

/-- `read_pdf_file`: join the per-page texts with newlines, or raise an
`ImportError` naming PyPDF2 when the import fails. -/
def read_pdf_file (env : Env) (content : Bytes) : Except PyError String :=
  if env.pyPDF2Available then
    .ok (String.intercalate "\n" (env.pdfPages content))
  else
    .error (.importError
      "PyPDF2 is required to read PDF files. Install it using: pip install PyPDF2")

/-- `read_word_file`: join the per-paragraph texts with newlines, or
raise an `ImportError` naming python-docx when the import fails. -/
def read_word_file (env : Env) (content : Bytes) : Except PyError String :=
  if env.pythonDocxAvailable then
    .ok (String.intercalate "\n" (env.docxParagraphs content))
  else
    .error (.importError
      "python-docx is required to read Word files. Install it using: pip install python-docx")

namespace DocumentReader

/-- The registry `self.readers` built in `DocumentReader.__init__`. -/
def readers : List (String × (Env → Bytes → Except PyError String)) :=
  [(".txt", read_txt_file), (".pdf", read_pdf_file),
   (".doc", read_word_file), (".docx", read_word_file)]

/-- `DocumentReader.supported_formats`: the registry's keys. -/
def supported_formats : List String := readers.map Prod.fst

/-- `DocumentReader.read`: existence check, then lowercased-suffix
dispatch through the registry, then the format-specific reader. -/
def read (env : Env) (fs : FileSystem) (file_path : String) : Except PyError String :=
  match fs.files.lookup file_path with
  | none => .error (.fileNotFoundError ("File not found: " ++ file_path))
  | some content =>
    let file_extension := strToLower (pathSuffix file_path)
    match readers.lookup file_extension with
    | none =>
      .error (.valueError ("Unsupported file format: " ++ file_extension ++
        ". Supported formats are: " ++ String.intercalate ", " supported_formats))
    | some reader => reader env content

end DocumentReader

/-- One chat message of the request body built by `OpenAILLM.ask`. -/
structure Message where
  role : String
  content : String
deriving DecidableEq, Repr

/-- The remote chat-completion endpoint: a black box from the message
list and model identifier to a reply or a raised failure. -/
abbrev ChatApi := List Message → String → Except PyError String

/-- Python truthiness of an `Optional[str]`: `None` and `""` are falsy. -/
def pyTruthy : Option String → Bool
  | none => false
  | some s => !s.isEmpty

namespace OpenAILLM

/-- `OpenAILLM.ask`: append a system message only when the supplied
`system_message` is truthy, then the user message, and call the API. -/
def ask (api : ChatApi) (prompt : String) (system_message : Option String)
    (model : String) : Except PyError String :=
  let messages : List Message := []
  let messages :=
    if pyTruthy system_message then
      messages ++ [⟨"system", system_message.getD ""⟩]
    else messages
  let messages := messages ++ [⟨"user", prompt⟩]
  api messages model

end OpenAILLM

/-- `BaseLLM`: anything exposing `ask(prompt, system_message, model)`. -/
structure BaseLLM where
  ask : String → Option String → String → Except PyError String

/-- An `OpenAILLM` instance over a given remote endpoint, viewed as a
`BaseLLM`. -/
def mkOpenAILLM (api : ChatApi) : BaseLLM := ⟨OpenAILLM.ask api⟩

namespace DocumentQAAgent

/-- `DocumentQAAgent.DEFAULT_SYSTEM_INSTRUCTION`, verbatim. -/
def DEFAULT_SYSTEM_INSTRUCTION : String :=
  "\n    Use the provided context to answer the question. \n    If you cannot find the answer from the provided context, say \"I cannot find the answer in the provided context.\"\n    "

/-- The default of the `model` parameter of `DocumentQAAgent.ask`. -/
def defaultModel : String := "gpt-3.5-turbo"

/-- The f-string `question_with_context` of `DocumentQAAgent.ask`,
verbatim (16-space indentation from the source). -/
def composePrompt (document_content question : String) : String :=
  "\n                Context: " ++ document_content ++
  "\n                Question: " ++ question ++ "\n                "

/-- The body of the `try` block of `DocumentQAAgent.ask`: read the
document, compose the prompt, delegate to the language model. -/
def askInner (llm : BaseLLM) (env : Env) (fs : FileSystem)
    (document_path question : String) (system_message : Option String)
    (model : String) : Except PyError String :=
  match DocumentReader.read env fs document_path with
  | .error e => .error e
  | .ok document_content =>
    llm.ask (composePrompt document_content question) system_message model

/-- The `except Exception` clause of `DocumentQAAgent.ask`: any failure
is re-raised as `Exception(f"Error processing the document: {str(e)}")`. -/
def wrapAgentError : Except PyError String → Except PyError String
  | .ok r => .ok r
  | .error e => .error (.exception ("Error processing the document: " ++ e.str))

/-- `DocumentQAAgent.ask`: the `try` body guarded by the generic
wrapping `except` clause. -/
def ask (llm : BaseLLM) (env : Env) (fs : FileSystem)
    (document_path question : String) (system_message : Option String)
    (model : String) : Except PyError String :=
  wrapAgentError (askInner llm env fs document_path question system_message model)

end DocumentQAAgent

/-- A Gradio upload handle: only its `.name` (temp-file path) is used. -/
structure FileObj where
  name : String

/-- Python `str.strip()`: drop leading and trailing whitespace. -/
def pyStrip (s : String) : String :=
  String.mk (((s.data.dropWhile Char.isWhitespace).reverse.dropWhile Char.isWhitespace).reverse)

/-- `ask_doc_qa_agent` of the UI layer: validate the upload and the
question, then call the agent with the default system instruction and
the selected model; render the answer, or `"Error: ..."` on failure. -/
def ask_doc_qa_agent (env : Env) (fs : FileSystem) (api : ChatApi)
    (file_obj : Option FileObj) (question : String) (model : String) : String :=
  match file_obj with
  | none => "Error: Please upload a document first."
  | some f =>
    if (pyStrip question).isEmpty then "Error: Please enter a question."
    else
      match DocumentQAAgent.ask (mkOpenAILLM api) env fs f.name question
          (some DocumentQAAgent.DEFAULT_SYSTEM_INSTRUCTION) model with
      | .ok response => response
      | .error e => "Error: " ++ e.str

/-- Occurrence of `sub` as a contiguous substring, on character lists. -/
def listContains (sub l : List Char) : Prop := ∃ p t, l = p ++ sub ++ t

/-- Python's `sub in s` substring relation. -/
def strContains (sub s : String) : Prop := listContains sub.data s.data

/-- Concrete codec table for witnesses: UTF-8 and latin-1 fail, ASCII
succeeds. -/
def w1Env : Env :=
  ⟨fun enc _ => if enc = "ascii" then .ok "hello" else .error ⟨enc, "fail-" ++ enc⟩,
   true, fun _ => [], true, fun _ => []⟩

/-- Concrete one-file file system for witnesses. -/
def w1Fs : FileSystem := ⟨[("a.txt", [255])]⟩

/-- Concrete codec table on which every encoding fails, each with a
distinct error. -/
def c2Env : Env :=
  ⟨fun enc _ => .error ⟨enc, "cex-" ++ enc⟩,
   true, fun _ => [], true, fun _ => []⟩

/-- Concrete file system for the all-encodings-fail scenario. -/
def c2Fs : FileSystem := ⟨[("a.txt", [0])]⟩

/-- Concrete environment whose text codecs always succeed and whose
binary parsers are installed. -/
def wOkEnv : Env :=
  ⟨fun _ _ => .ok "The sky is blue.",
   true, fun _ => ["page one", "page two"], true, fun _ => ["para one", "para two"]⟩

/-- Concrete file system holding a text file, a PDF and a Word file. -/
def wOkFs : FileSystem :=
  ⟨[("notes.txt", [84, 104, 101]), ("slides.pdf", [37, 80]), ("memo.docx", [80, 75])]⟩

/-- A stub chat endpoint that always answers "blue". -/
def blueApi : ChatApi := fun _ _ => .ok "blue"

/-- A stub chat endpoint that reports the roles of the messages it was
sent, making the request body observable. -/
def rolesApi : ChatApi := fun ms _ => .ok (String.intercalate "," (ms.map Message.role))

/-- A substring occurrence, from an explicit decomposition. -/
theorem strContains_of_parts (pre sub post s : String) (h : s = pre ++ sub ++ post) :
    strContains sub s := by
  unfold strContains listContains
  exact ⟨pre.data, post.data, by
    subst h; simp [String.data_append, List.append_assoc]⟩

/-- A substring occurrence survives prepending more text. -/
theorem strContains_append_right (sub t s : String) (h : strContains sub t) :
    strContains sub (s ++ t) := by
  obtain ⟨p, q, hp⟩ := h
  exact ⟨s.data ++ p, q, by simp [String.data_append, hp, List.append_assoc]⟩

/-- A string contains its own final segment. -/
theorem strContains_suffix (pre sub : String) : strContains sub (pre ++ sub) := by
  unfold strContains listContains
  exact ⟨pre.data, [], by simp [String.data_append]⟩

/-- One fallback step: a succeeding codec returns its text at once. -/
theorem tryFallback_cons_ok (env : Env) (content : Bytes) (enc : String)
    (rest : List String) (text : String) (h : env.decode enc content = .ok text) :
    tryFallbackEncodings env content (enc :: rest) = some text := by
  unfold tryFallbackEncodings
  rw [h]

/-- One fallback step: a failing codec passes control to the rest. -/
theorem tryFallback_cons_error (env : Env) (content : Bytes) (enc : String)
    (rest : List String) (err : UnicodeDecodeError)
    (h : env.decode enc content = .error err) :
    tryFallbackEncodings env content (enc :: rest) =
      tryFallbackEncodings env content rest := by
  have hstep : tryFallbackEncodings env content (enc :: rest) =
      match env.decode enc content with
      | .ok text => some text
      | .error _ => tryFallbackEncodings env content rest := rfl
  rw [hstep, h]

/-- Claim C1: for a `.txt` file whose bytes fail to decode as UTF-8 but
decode under some encoding of the ordered fallback list, `DocumentReader.read`
succeeds and returns the text of the first fallback encoding that
succeeds, earlier attempts having all failed. -/
theorem claim_C1_fallback_first_success (env : Env) (fs : FileSystem)
    (file_path : String) (content : Bytes) (e : UnicodeDecodeError)
    (i : Nat) (s : String)
    (hfile : fs.files.lookup file_path = some content)
    (hext : strToLower (pathSuffix file_path) = ".txt")
    (hutf8 : env.decode "utf-8" content = .error e)
    (hi : i < fallbackEncodings.length)
    (hs : env.decode (fallbackEncodings.getD i "") content = .ok s)
    (hprev : ∀ j, j < i → ∃ err, env.decode (fallbackEncodings.getD j "") content = .error err) :
    DocumentReader.read env fs file_path = .ok s := by
  unfold DocumentReader.read
  rw [hfile]
  dsimp only
  rw [hext]
  rw [show DocumentReader.readers.lookup ".txt" = some read_txt_file from rfl]
  dsimp only
  unfold read_txt_file
  rw [hutf8]
  dsimp only
  simp only [show fallbackEncodings.length = 3 from rfl] at hi
  interval_cases i
  · rw [show fallbackEncodings.getD 0 "" = "latin-1" from rfl] at hs
    rw [show fallbackEncodings = ["latin-1", "ascii", "utf-16"] from rfl,
      tryFallback_cons_ok env content _ _ s hs]
  · obtain ⟨e0, h0⟩ := hprev 0 (by omega)
    rw [show fallbackEncodings.getD 0 "" = "latin-1" from rfl] at h0
    rw [show fallbackEncodings.getD 1 "" = "ascii" from rfl] at hs
    rw [show fallbackEncodings = ["latin-1", "ascii", "utf-16"] from rfl,
      tryFallback_cons_error env content _ _ e0 h0,
      tryFallback_cons_ok env content _ _ s hs]
  · obtain ⟨e0, h0⟩ := hprev 0 (by omega)
    obtain ⟨e1, h1⟩ := hprev 1 (by omega)
    rw [show fallbackEncodings.getD 0 "" = "latin-1" from rfl] at h0
    rw [show fallbackEncodings.getD 1 "" = "ascii" from rfl] at h1
    rw [show fallbackEncodings.getD 2 "" = "utf-16" from rfl] at hs
    rw [show fallbackEncodings = ["latin-1", "ascii", "utf-16"] from rfl,
      tryFallback_cons_error env content _ _ e0 h0,
      tryFallback_cons_error env content _ _ e1 h1,
      tryFallback_cons_ok env content _ _ s hs]

/-- Witness for C1: UTF-8 and latin-1 fail, ASCII (the second fallback)
succeeds, and the ASCII text is returned. -/
theorem claim_C1_fallback_first_success_witness :
    DocumentReader.read w1Env w1Fs "a.txt" = .ok "hello" :=
  claim_C1_fallback_first_success w1Env w1Fs "a.txt" [255] ⟨"utf-8", "fail-utf-8"⟩
    1 "hello" rfl rfl rfl (by decide) rfl
    (fun j hj => by
      interval_cases j
      exact ⟨⟨"latin-1", "fail-latin-1"⟩, rfl⟩)

/-- Counterexample to C2 as stated: when every encoding fails, the
error propagated by `DocumentReader.read` is the primary UTF-8 failure,
which differs from the failure of `utf-16`, the last attempted fallback
encoding. -/
theorem claim_C2_counterexample :
    DocumentReader.read c2Env c2Fs "a.txt" =
      .error (.unicodeDecodeError ⟨"utf-8", "cex-utf-8"⟩) ∧
    c2Env.decode "utf-16" [0] = .error ⟨"utf-16", "cex-utf-16"⟩ ∧
    PyError.unicodeDecodeError ⟨"utf-8", "cex-utf-8"⟩ ≠
      PyError.unicodeDecodeError ⟨"utf-16", "cex-utf-16"⟩ :=
  ⟨rfl, rfl, by decide⟩

/-- Claim C2 (amended): when the primary and every fallback encoding
fail, extraction fails with a decoding error, and the failure propagated
to the caller is the primary (UTF-8) one — the bare `raise` re-raises
the exception handled by the enclosing `except` block. -/
theorem claim_C2_all_fail_primary_error (env : Env) (fs : FileSystem)
    (file_path : String) (content : Bytes) (e : UnicodeDecodeError)
    (hfile : fs.files.lookup file_path = some content)
    (hext : strToLower (pathSuffix file_path) = ".txt")
    (hutf8 : env.decode "utf-8" content = .error e)
    (hfb : ∀ enc ∈ fallbackEncodings, ∃ err, env.decode enc content = .error err) :
    DocumentReader.read env fs file_path = .error (.unicodeDecodeError e) := by
  unfold DocumentReader.read
  rw [hfile]
  dsimp only
  rw [hext]
  rw [show DocumentReader.readers.lookup ".txt" = some read_txt_file from rfl]
  dsimp only
  unfold read_txt_file
  rw [hutf8]
  dsimp only
  obtain ⟨e0, h0⟩ := hfb "latin-1" (by simp [fallbackEncodings])
  obtain ⟨e1, h1⟩ := hfb "ascii" (by simp [fallbackEncodings])
  obtain ⟨e2, h2⟩ := hfb "utf-16" (by simp [fallbackEncodings])
  rw [show fallbackEncodings = ["latin-1", "ascii", "utf-16"] from rfl,
    tryFallback_cons_error env content _ _ e0 h0,
    tryFallback_cons_error env content _ _ e1 h1,
    tryFallback_cons_error env content _ _ e2 h2]
  rfl

/-- Witness for the amended C2: every codec fails on the concrete file
and the UTF-8 failure is the one surfaced. -/
theorem claim_C2_all_fail_primary_error_witness :
    DocumentReader.read c2Env c2Fs "a.txt" =
      .error (.unicodeDecodeError ⟨"utf-8", "cex-utf-8"⟩) :=
  claim_C2_all_fail_primary_error c2Env c2Fs "a.txt" [0] ⟨"utf-8", "cex-utf-8"⟩
    rfl rfl rfl (fun enc _ => ⟨⟨enc, "cex-" ++ enc⟩, rfl⟩)

/-- Claim C3: on a path absent from the file system, `DocumentReader.read`
fails with `FileNotFoundError` for every path whatsoever — in particular
before extension validation, since the conclusion holds even when the
suffix is unregistered. -/
theorem claim_C3_missing_file_precedes_dispatch (env : Env) (fs : FileSystem)
    (file_path : String)
    (hmiss : fs.files.lookup file_path = none) :
    DocumentReader.read env fs file_path =
      .error (.fileNotFoundError ("File not found: " ++ file_path)) := by
  unfold DocumentReader.read
  rw [hmiss]

/-- Witness for C3: a missing path with an unregistered extension still
reports `FileNotFoundError`, not the unsupported-format error. -/
theorem claim_C3_missing_file_precedes_dispatch_witness :
    DocumentReader.read w1Env ⟨[]⟩ "ghost.zzz" =
      .error (.fileNotFoundError "File not found: ghost.zzz") :=
  claim_C3_missing_file_precedes_dispatch w1Env ⟨[]⟩ "ghost.zzz" rfl

/-- The registry lookup misses exactly outside `supported_formats`. -/
theorem readers_lookup_eq_none (ext : String)
    (h : ext ∉ DocumentReader.supported_formats) :
    DocumentReader.readers.lookup ext = none := by
  simp only [DocumentReader.supported_formats, DocumentReader.readers,
    List.map_cons, List.map_nil, List.mem_cons, List.not_mem_nil, or_false,
    not_or] at h
  obtain ⟨h1, h2, h3, h4⟩ := h
  have b1 : (ext == ".txt") = false := beq_eq_false_iff_ne.mpr h1
  have b2 : (ext == ".pdf") = false := beq_eq_false_iff_ne.mpr h2
  have b3 : (ext == ".doc") = false := beq_eq_false_iff_ne.mpr h3
  have b4 : (ext == ".docx") = false := beq_eq_false_iff_ne.mpr h4
  simp [DocumentReader.readers, List.lookup, b1, b2, b3, b4]

/-- Claim C4: for an existing file whose lowercased suffix is not
registered, `DocumentReader.read` fails with an unsupported-format
error whose message contains every registered extension. -/
theorem claim_C4_unsupported_message_lists_formats (env : Env) (fs : FileSystem)
    (file_path : String) (content : Bytes)
    (hfile : fs.files.lookup file_path = some content)
    (hext : strToLower (pathSuffix file_path) ∉ DocumentReader.supported_formats) :
    ∃ m, DocumentReader.read env fs file_path = .error (.valueError m) ∧
      ∀ e ∈ DocumentReader.supported_formats, strContains e m := by
  have hnone := readers_lookup_eq_none _ hext
  refine ⟨"Unsupported file format: " ++ strToLower (pathSuffix file_path) ++
    ". Supported formats are: " ++ String.intercalate ", " DocumentReader.supported_formats,
    ?_, ?_⟩
  · unfold DocumentReader.read
    rw [hfile]
    dsimp only
    rw [hnone]
  · intro e he
    have hinter : String.intercalate ", " DocumentReader.supported_formats =
        ".txt, .pdf, .doc, .docx" := rfl
    rw [hinter]
    refine strContains_append_right e _ _ ?_
    fin_cases he
    · exact strContains_of_parts "" ".txt" ", .pdf, .doc, .docx" _ rfl
    · exact strContains_of_parts ".txt, " ".pdf" ", .doc, .docx" _ rfl
    · exact strContains_of_parts ".txt, .pdf, " ".doc" ", .docx" _ rfl
    · exact strContains_of_parts ".txt, .pdf, .doc, " ".docx" "" _ rfl

/-- Witness for C4: an existing `.zzz` file is rejected and the message
names all four registered extensions. -/
theorem claim_C4_unsupported_message_lists_formats_witness :
    ∃ m, DocumentReader.read w1Env ⟨[("data.zzz", [1])]⟩ "data.zzz" =
        .error (.valueError m) ∧
      ∀ e ∈ DocumentReader.supported_formats, strContains e m :=
  claim_C4_unsupported_message_lists_formats w1Env ⟨[("data.zzz", [1])]⟩
    "data.zzz" [1] rfl (by decide)

/-- Claim C5: whenever the try body of `DocumentQAAgent.ask` (extraction
or the model client) fails, the caller receives exactly one generic
`Exception` whose message wraps the original failure's message, the
original kind being erased. -/
theorem claim_C5_generic_error_wrapping (llm : BaseLLM) (env : Env) (fs : FileSystem)
    (document_path question : String) (system_message : Option String)
    (model : String) (e : PyError)
    (herr : DocumentQAAgent.askInner llm env fs document_path question
      system_message model = .error e) :
    DocumentQAAgent.ask llm env fs document_path question system_message model =
      .error (.exception ("Error processing the document: " ++ e.str)) ∧
    strContains e.str ("Error processing the document: " ++ e.str) := by
  constructor
  · unfold DocumentQAAgent.ask
    rw [herr]
    rfl
  · exact strContains_suffix "Error processing the document: " e.str

/-- Witness for C5: on a missing file the agent surfaces one generic
wrapped failure carrying the extraction failure's message. -/
theorem claim_C5_generic_error_wrapping_witness :
    DocumentQAAgent.ask ⟨fun _ _ _ => .ok "ans"⟩ wOkEnv ⟨[]⟩ "gone.txt" "q" none "m" =
      .error (.exception "Error processing the document: File not found: gone.txt") ∧
    strContains "File not found: gone.txt"
      "Error processing the document: File not found: gone.txt" :=
  claim_C5_generic_error_wrapping ⟨fun _ _ _ => .ok "ans"⟩ wOkEnv ⟨[]⟩ "gone.txt" "q"
    none "m" (.fileNotFoundError "File not found: gone.txt") rfl

/-- Claim C6: with the default system instruction and model, the agent
hands the model client the composed prompt — which contains the
extracted text and the question verbatim — together with the documented
default system instruction. -/
theorem claim_C6_prompt_verbatim_default_instruction
    (f : String → Option String → String → Except PyError String)
    (env : Env) (fs : FileSystem) (document_path question T : String)
    (hread : DocumentReader.read env fs document_path = .ok T) :
    DocumentQAAgent.ask ⟨f⟩ env fs document_path question
        (some DocumentQAAgent.DEFAULT_SYSTEM_INSTRUCTION) DocumentQAAgent.defaultModel =
      DocumentQAAgent.wrapAgentError
        (f (DocumentQAAgent.composePrompt T question)
          (some DocumentQAAgent.DEFAULT_SYSTEM_INSTRUCTION) DocumentQAAgent.defaultModel) ∧
    strContains T (DocumentQAAgent.composePrompt T question) ∧
    strContains question (DocumentQAAgent.composePrompt T question) := by
  refine ⟨?_, ?_, ?_⟩
  · unfold DocumentQAAgent.ask DocumentQAAgent.askInner
    rw [hread]
  · exact strContains_of_parts "\n                Context: " T
      ("\n                Question: " ++ question ++ "\n                ") _
      (by unfold DocumentQAAgent.composePrompt; simp only [String.append_assoc])
  · exact strContains_of_parts
      ("\n                Context: " ++ T ++ "\n                Question: ") question
      "\n                " _ rfl

/-- Witness for C6: concrete text and question, the echoing model
client receiving the default instruction and the composed prompt. -/
theorem claim_C6_prompt_verbatim_default_instruction_witness :
    DocumentQAAgent.ask ⟨fun p _ _ => .ok p⟩ wOkEnv wOkFs "notes.txt"
        "What color is the sky?" (some DocumentQAAgent.DEFAULT_SYSTEM_INSTRUCTION)
        DocumentQAAgent.defaultModel =
      DocumentQAAgent.wrapAgentError
        (.ok (DocumentQAAgent.composePrompt "The sky is blue." "What color is the sky?")) ∧
    strContains "The sky is blue."
      (DocumentQAAgent.composePrompt "The sky is blue." "What color is the sky?") ∧
    strContains "What color is the sky?"
      (DocumentQAAgent.composePrompt "The sky is blue." "What color is the sky?") :=
  claim_C6_prompt_verbatim_default_instruction (fun p _ _ => .ok p) wOkEnv wOkFs
    "notes.txt" "What color is the sky?" "The sky is blue." rfl

/-- Claim C7: on the success path the agent returns the model client's
text unmodified. -/
theorem claim_C7_returns_model_text (llm : BaseLLM) (env : Env) (fs : FileSystem)
    (document_path question : String) (system_message : Option String)
    (model T S : String)
    (hread : DocumentReader.read env fs document_path = .ok T)
    (hllm : llm.ask (DocumentQAAgent.composePrompt T question) system_message model = .ok S) :
    DocumentQAAgent.ask llm env fs document_path question system_message model = .ok S := by
  unfold DocumentQAAgent.ask DocumentQAAgent.askInner
  rw [hread]
  dsimp only
  rw [hllm]
  rfl

/-- Witness for C7: a stubbed model client answering "blue" makes the
ask entry point return exactly "blue". -/
theorem claim_C7_returns_model_text_witness :
    DocumentQAAgent.ask ⟨fun _ _ _ => .ok "blue"⟩ wOkEnv wOkFs "notes.txt"
      "What color is the sky?" none "gpt-4o" = .ok "blue" :=
  claim_C7_returns_model_text ⟨fun _ _ _ => .ok "blue"⟩ wOkEnv wOkFs "notes.txt"
    "What color is the sky?" none "gpt-4o" "The sky is blue." "blue" rfl rfl

/-- Claim C8: PDF extraction joins the per-page texts with newlines,
Word extraction joins the per-paragraph texts with newlines, and `.doc`
and `.docx` dispatch to the same handler. -/
theorem claim_C8_join_pages_paragraphs (env : Env) (fs : FileSystem)
    (pdf_path docx_path : String) (pdf_content docx_content : Bytes)
    (hp : fs.files.lookup pdf_path = some pdf_content)
    (hpe : strToLower (pathSuffix pdf_path) = ".pdf")
    (hpd : env.pyPDF2Available = true)
    (hw : fs.files.lookup docx_path = some docx_content)
    (hwe : strToLower (pathSuffix docx_path) = ".docx")
    (hwd : env.pythonDocxAvailable = true) :
    DocumentReader.read env fs pdf_path =
      .ok (String.intercalate "\n" (env.pdfPages pdf_content)) ∧
    DocumentReader.read env fs docx_path =
      .ok (String.intercalate "\n" (env.docxParagraphs docx_content)) ∧
    DocumentReader.readers.lookup ".doc" = some read_word_file ∧
    DocumentReader.readers.lookup ".docx" = some read_word_file := by
  refine ⟨?_, ?_, rfl, rfl⟩
  · unfold DocumentReader.read
    rw [hp]
    dsimp only
    rw [hpe]
    rw [show DocumentReader.readers.lookup ".pdf" = some read_pdf_file from rfl]
    dsimp only
    unfold read_pdf_file
    rw [hpd]
    rfl
  · unfold DocumentReader.read
    rw [hw]
    dsimp only
    rw [hwe]
    rw [show DocumentReader.readers.lookup ".docx" = some read_word_file from rfl]
    dsimp only
    unfold read_word_file
    rw [hwd]
    rfl

/-- Witness for C8: a concrete PDF and Word file, page and paragraph
order preserved under the newline join. -/
theorem claim_C8_join_pages_paragraphs_witness :
    DocumentReader.read wOkEnv wOkFs "slides.pdf" = .ok "page one\npage two" ∧
    DocumentReader.read wOkEnv wOkFs "memo.docx" = .ok "para one\npara two" ∧
    DocumentReader.readers.lookup ".doc" = some read_word_file ∧
    DocumentReader.readers.lookup ".docx" = some read_word_file :=
  claim_C8_join_pages_paragraphs wOkEnv wOkFs "slides.pdf" "memo.docx"
    [37, 80] [80, 75] rfl rfl rfl rfl rfl rfl

/-- Claim C9: the UI handler is a total string-valued function — it
never raises; it rejects a missing upload and a blank question without
consulting the model endpoint, renders a successful answer verbatim,
and converts any orchestration failure into a string carrying
"Error:". -/
theorem claim_C9_ui_total_validation_rendering (env : Env) (fs : FileSystem)
    (model : String) :
    (∀ api question, ask_doc_qa_agent env fs api none question model =
      "Error: Please upload a document first.") ∧
    (∀ api f question, (pyStrip question).isEmpty = true →
      ask_doc_qa_agent env fs api (some f) question model =
        "Error: Please enter a question.") ∧
    (∀ api f question r, (pyStrip question).isEmpty = false →
      DocumentQAAgent.ask (mkOpenAILLM api) env fs f.name question
        (some DocumentQAAgent.DEFAULT_SYSTEM_INSTRUCTION) model = .ok r →
      ask_doc_qa_agent env fs api (some f) question model = r) ∧
    (∀ api f question e, (pyStrip question).isEmpty = false →
      DocumentQAAgent.ask (mkOpenAILLM api) env fs f.name question
        (some DocumentQAAgent.DEFAULT_SYSTEM_INSTRUCTION) model = .error e →
      ask_doc_qa_agent env fs api (some f) question model = "Error: " ++ e.str ∧
      strContains "Error:" (ask_doc_qa_agent env fs api (some f) question model)) := by
  refine ⟨fun api question => rfl, ?_, ?_, ?_⟩
  · intro api f question hq
    unfold ask_doc_qa_agent
    dsimp only
    rw [hq]
    rfl
  · intro api f question r hq hok
    unfold ask_doc_qa_agent
    dsimp only
    rw [hq, hok]
    rfl
  · intro api f question e hq herr
    have h : ask_doc_qa_agent env fs api (some f) question model = "Error: " ++ e.str := by
      unfold ask_doc_qa_agent
      dsimp only
      rw [hq, herr]
      rfl
    refine ⟨h, h ▸ ?_⟩
    exact strContains_of_parts "" "Error:" (" " ++ e.str) _ rfl

/-- Witness for C9: all four behaviors at concrete inputs — missing
upload, blank question, a stubbed "blue" answer rendered verbatim, and
a missing document rendered as an "Error:" string. -/
theorem claim_C9_ui_total_validation_rendering_witness :
    ask_doc_qa_agent wOkEnv wOkFs blueApi none "q" "gpt-4o" =
      "Error: Please upload a document first." ∧
    ask_doc_qa_agent wOkEnv wOkFs blueApi (some ⟨"notes.txt"⟩) "   " "gpt-4o" =
      "Error: Please enter a question." ∧
    ask_doc_qa_agent wOkEnv wOkFs blueApi (some ⟨"notes.txt"⟩)
      "What color is the sky?" "gpt-4o" = "blue" ∧
    ask_doc_qa_agent wOkEnv wOkFs blueApi (some ⟨"missing.pdf"⟩) "q" "gpt-4o" =
      "Error: Error processing the document: File not found: missing.pdf" ∧
    strContains "Error:"
      (ask_doc_qa_agent wOkEnv wOkFs blueApi (some ⟨"missing.pdf"⟩) "q" "gpt-4o") := by
  obtain ⟨h1, h2, h3, h4⟩ :=
    claim_C9_ui_total_validation_rendering wOkEnv wOkFs "gpt-4o"
  obtain ⟨h4a, h4b⟩ := h4 blueApi ⟨"missing.pdf"⟩ "q"
    (.exception "Error processing the document: File not found: missing.pdf") rfl rfl
  exact ⟨h1 blueApi "q", h2 blueApi ⟨"notes.txt"⟩ "   " rfl,
    h3 blueApi ⟨"notes.txt"⟩ "What color is the sky?" "blue" rfl rfl, h4a, h4b⟩

/-- Claim C10: an explicitly supplied `None` (or empty) system message
suppresses the default: the request `OpenAILLM.ask` sends holds only
the user message. -/
theorem claim_C10_falsy_system_message_sends_user_only (api : ChatApi)
    (env : Env) (fs : FileSystem) (document_path question T model : String)
    (system_message : Option String)
    (hread : DocumentReader.read env fs document_path = .ok T)
    (hsm : system_message = none ∨ system_message = some "") :
    DocumentQAAgent.ask (mkOpenAILLM api) env fs document_path question
        system_message model =
      DocumentQAAgent.wrapAgentError
        (api [⟨"user", DocumentQAAgent.composePrompt T question⟩] model) := by
  unfold DocumentQAAgent.ask DocumentQAAgent.askInner
  rw [hread]
  dsimp only
  unfold mkOpenAILLM OpenAILLM.ask
  rcases hsm with h | h <;> subst h <;> rfl

/-- Witness for C10: with `system_message = none` the role-reporting
endpoint sees exactly one message, of role "user". -/
theorem claim_C10_falsy_system_message_sends_user_only_witness :
    DocumentQAAgent.ask (mkOpenAILLM rolesApi) wOkEnv wOkFs "notes.txt" "q"
      none "m" = .ok "user" :=
  (claim_C10_falsy_system_message_sends_user_only rolesApi wOkEnv wOkFs
    "notes.txt" "q" "The sky is blue." "m" none rfl (Or.inl rfl)).trans rfl
